import Mathlib

/-!
Verification of the `naia-socket-webrtc-rs-example` client against its
natural-language specification.  The definitions below are a shallow
embedding of `src/webrtc-rs-client/src/main.rs` (and, where the relevant
component is present only in other revisions of the repository, of the
specification text, marked `Modelled from the spec:`).
-/

/-! ## JSON values (embedding of the tinyjson `JsonValue` type)

JSON numbers are stored by tinyjson as 64-bit floats; every finite double
is a rational number, so we model the numeric payload as `ℚ` (NaN cannot
be produced by the JSON grammar). -/

inductive JsonValue where
  | null
  | boolean (b : Bool)
  | number (n : ℚ)
  | string (s : String)
  | array (items : List JsonValue)
  | object (fields : List (String × JsonValue))

/-- Embedding of tinyjson indexing `value[key]`: the Rust `Index` impl
panics when the value is not an object or the key is absent; `none`
models the panic (process abort). -/
def JsonValue.index (j : JsonValue) (key : String) : Option JsonValue :=
  match j with
  | .object fields => fields.lookup key
  | _ => none

/-- Embedding of `JsonValue::get::<String>()`: `some` only when the value
is a JSON string. -/
def JsonValue.getString : JsonValue → Option String
  | .string s => some s
  | _ => none

/-- Embedding of `JsonValue::get::<f64>()`: `some` only when the value is
a JSON number. -/
def JsonValue.getNumber : JsonValue → Option ℚ
  | .number n => some n
  | _ => none

/-- The two-level field access `json_obj[k1][k2].get::<String>()` followed
by `unwrap`, as in each line of `get_session_response`; `none` models a
panic at any of the three steps. -/
def fieldString (j : JsonValue) (k1 k2 : String) : Option String :=
  ((j.index k1).bind (fun o => o.index k2)).bind JsonValue.getString

/-- The two-level field access `json_obj[k1][k2].get::<f64>()` followed by
`unwrap`; `none` models a panic at any of the three steps. -/
def fieldNumber (j : JsonValue) (k1 k2 : String) : Option ℚ :=
  ((j.index k1).bind (fun o => o.index k2)).bind JsonValue.getNumber

/-! ## The decoded signaling response (structs from `main.rs`) -/

structure SessionAnswer where
  sdp : String
  type_str : String
  deriving DecidableEq, Repr

structure SessionCandidate where
  candidate : String
  sdp_m_line_index : ℕ
  sdp_mid : String
  deriving DecidableEq, Repr

structure JsSessionResponse where
  answer : SessionAnswer
  candidate : SessionCandidate
  deriving DecidableEq, Repr

/-- Embedding of the Rust cast `f64 as u16` (applied at
`main.rs:275`): truncation toward zero, saturating at the bounds 0 and
65535.  On a nonpositive input truncation toward zero followed by the
clamp yields 0, which agrees with `⌊q⌋` clamped below at 0, so the
definition uses the floor on the remaining positive branch, where
truncation and floor coincide. -/
def rust_f64_as_u16 (q : ℚ) : ℕ :=
  if q ≤ 0 then 0
  else if (65535 : ℚ) ≤ q then 65535
  else (⌊q⌋).toNat

/-- Embedding of `get_session_response` (`main.rs:262-288`): each line of
the Rust function is an indexed field lookup, a typed `get`, and an
`unwrap`; any failure panics, modelled by `none`.  The
`sdpMLineIndex` number is cast to `u16` by `rust_f64_as_u16`. -/
def get_session_response (json_obj : JsonValue) : Option JsSessionResponse := do
  let sdp ← fieldString json_obj "answer" "sdp"
  let type_str ← fieldString json_obj "answer" "type"
  let candidate ← fieldString json_obj "candidate" "candidate"
  let idx ← fieldNumber json_obj "candidate" "sdpMLineIndex"
  let sdp_m_line_index := rust_f64_as_u16 idx
  let sdp_mid ← fieldString json_obj "candidate" "sdpMid"
  some { answer := { sdp, type_str }
         candidate := { candidate, sdp_m_line_index, sdp_mid } }

/-- All five required fields are present with their expected JSON types;
`false` anywhere means `get_session_response` panics. -/
def requiredFieldsOk (j : JsonValue) : Bool :=
  (fieldString j "answer" "sdp").isSome &&
  (fieldString j "answer" "type").isSome &&
  (fieldString j "candidate" "candidate").isSome &&
  (fieldNumber j "candidate" "sdpMLineIndex").isSome &&
  (fieldString j "candidate" "sdpMid").isSome

/-- A well-shaped signaling response body, used as a concrete test input. -/
def mkResponseJson (sdp typ cand : String) (idx : ℚ) (mid : String) : JsonValue :=
  .object [("answer", .object [("sdp", .string sdp), ("type", .string typ)]),
           ("candidate", .object [("candidate", .string cand),
                                  ("sdpMLineIndex", .number idx),
                                  ("sdpMid", .string mid)])]

/-- A concrete fractional negative JSON number, written as an explicit
rational so that kernel evaluation works: the value minus seven halves. -/
def qNegSevenHalves : ℚ := ⟨-7, 2, by decide, by decide⟩

/-! ## UTF-8 decoding (embedding of Rust `String::from_utf8`)

Rust validates strict UTF-8: continuation bytes in `80..=BF`, no overlong
encodings, no surrogate code points, nothing above `10FFFF`.  The decoder
below follows that table; `none` models `FromUtf8Error`. -/

/-- True when `b` is a UTF-8 continuation byte. -/
def isContByte (b : UInt8) : Bool := 0x80 ≤ b && b ≤ 0xBF

/-- Allowed range of the second byte of a three-byte sequence headed by
`b1` (excludes overlong encodings and surrogates). -/
def threeByteSndOk (b1 b2 : UInt8) : Bool :=
  if b1 == 0xE0 then 0xA0 ≤ b2 && b2 ≤ 0xBF
  else if b1 == 0xED then 0x80 ≤ b2 && b2 ≤ 0x9F
  else isContByte b2

/-- Allowed range of the second byte of a four-byte sequence headed by
`b1` (excludes overlong encodings and code points above `10FFFF`). -/
def fourByteSndOk (b1 b2 : UInt8) : Bool :=
  if b1 == 0xF0 then 0x90 ≤ b2 && b2 ≤ 0xBF
  else if b1 == 0xF4 then 0x80 ≤ b2 && b2 ≤ 0x8F
  else isContByte b2

/-- Strict UTF-8 decoder over the received bytes; `none` models the
`FromUtf8Error` that `String::from_utf8` returns on invalid input. -/
def utf8Decode : List UInt8 → Option (List Char)
  | [] => some []
  | b :: rest =>
    if b ≤ 0x7F then
      (utf8Decode rest).map (fun cs => Char.ofNat b.toNat :: cs)
    else if 0xC2 ≤ b && b ≤ 0xDF then
      match rest with
      | b2 :: rest2 =>
        if isContByte b2 then
          (utf8Decode rest2).map (fun cs =>
            Char.ofNat ((b.toNat - 0xC0) * 64 + (b2.toNat - 0x80)) :: cs)
        else none
      | [] => none
    else if 0xE0 ≤ b && b ≤ 0xEF then
      match rest with
      | b2 :: b3 :: rest3 =>
        if threeByteSndOk b b2 && isContByte b3 then
          (utf8Decode rest3).map (fun cs =>
            Char.ofNat ((b.toNat - 0xE0) * 4096 +
              (b2.toNat - 0x80) * 64 + (b3.toNat - 0x80)) :: cs)
        else none
      | _ => none
    else if 0xF0 ≤ b && b ≤ 0xF4 then
      match rest with
      | b2 :: b3 :: b4 :: rest4 =>
        if fourByteSndOk b b2 && isContByte b3 && isContByte b4 then
          (utf8Decode rest4).map (fun cs =>
            Char.ofNat ((b.toNat - 0xF0) * 262144 + (b2.toNat - 0x80) * 4096 +
              (b3.toNat - 0x80) * 64 + (b4.toNat - 0x80)) :: cs)
        else none
      | _ => none
    else none

/-! ## The read task (embedding of `read_loop`, `main.rs:208-224`) -/

/-- Size of the receive buffer allocated by `read_loop`
(`main.rs:26`, `main.rs:209`). -/
def MESSAGE_SIZE : ℕ := 1500

/-- One result of `data_channel.read`: a successfully received payload
(the first `message_length` bytes of the buffer) or a read error (the
channel being closed is reported this way). -/
inductive ReadEvent where
  | payload (bytes : List UInt8)
  | readErr (msg : String)
  deriving DecidableEq, Repr

/-- Outcome of the read task on a finite trace of read results:
still running having consumed the trace, returned `Ok(())` after a read
error, or returned `Err(..)` after a UTF-8 decode failure.  Each outcome
carries the lines printed so far. -/
inductive ReadOutcome where
  | running (log : List String)
  | closedOk (log : List String)
  | utf8Err (log : List String)
  deriving DecidableEq, Repr

/-- Embedding of the body of `read_loop`: on a read error print and
return `Ok(())`; on a payload decode it as UTF-8, print the message line,
and continue; propagate a decode failure as an error return.  `log` is
the accumulator of printed lines, newest first. -/
def read_loop_go : List ReadEvent → List String → ReadOutcome
  | [], log => .running log.reverse
  | .readErr msg :: _, log =>
      .closedOk (("Datachannel closed; Exit the read_loop: " ++ msg) :: log).reverse
  | .payload bytes :: rest, log =>
      match utf8Decode bytes with
      | some cs =>
          read_loop_go rest (("Message from DataChannel: " ++ String.mk cs) :: log)
      | none => .utf8Err log.reverse

/-- The read task run from its initial state. -/
def read_loop (events : List ReadEvent) : ReadOutcome := read_loop_go events []

/-! ## The write task (embedding of `write_loop`, `main.rs:227-243`) -/

/-- The interval, in seconds, of the timer driving the write task
(`Duration::from_secs(5)`, `main.rs:230`). -/
def writeIntervalSecs : ℕ := 5

/-- The fixed payload sent on every timer expiry (`main.rs:235`). -/
def write_payload : String := "PING"

/-- One result of `data_channel.write`: the byte count on success, or a
send error. -/
inductive SendResult where
  | ok (n : ℕ)
  | sendErr (msg : String)
  deriving DecidableEq, Repr

/-- True on a successful send result. -/
def SendResult.isOk : SendResult → Bool
  | .ok _ => true
  | .sendErr _ => false

/-- Outcome of the write task on a finite trace of send results: still
running (every send so far succeeded), or stopped after the first failed
send (the `while result.is_ok()` condition fails and the function returns
`Ok(())`).  Each outcome carries the payloads sent, oldest first. -/
inductive WriteOutcome where
  | running (sent : List String)
  | stopped (sent : List String)
  deriving DecidableEq, Repr

/-- Embedding of the body of `write_loop`: each iteration waits for the
timer, sends `write_payload`, and stores the result; the loop continues
only while the stored result is `Ok`. -/
def write_loop_go : List SendResult → List String → WriteOutcome
  | [], sent => .running sent.reverse
  | .ok _ :: rest, sent => write_loop_go rest (write_payload :: sent)
  | .sendErr _ :: _, sent => .stopped (write_payload :: sent).reverse

/-- The write task run from its initial state (`result = Ok(0)`). -/
def write_loop (outcomes : List SendResult) : WriteOutcome := write_loop_go outcomes []

/-! ## Data channel configuration (`main.rs:74-80`) -/

/-- Embedding of `RTCDataChannelInit` from the webrtc crate; the
`default()` value has every option unset. -/
structure RTCDataChannelInit where
  ordered : Option Bool := none
  max_packet_life_time : Option ℕ := none
  max_retransmits : Option ℕ := none
  protocol : Option String := none
  negotiated : Option ℕ := none
  deriving DecidableEq, Repr

/-- The configuration built in `main`: default, then
`ordered = Some(false)` and `max_retransmits = Some(0)`. -/
def data_channel_config : RTCDataChannelInit :=
  { ordered := some false, max_retransmits := some 0 }

/-- The label passed to `create_data_channel` (`main.rs:79`). -/
def data_channel_label : String := "data"

/-! ## The signaling HTTP request (`main.rs:142-158`) -/

/-- The fixed signaling endpoint, a literal in `main` (`main.rs:144`). -/
def server_url : String := "http://127.0.0.1:14191/rtc_session"

/-- The parts of the outgoing request that `main` sets explicitly. -/
structure HttpRequest where
  method : String
  url : String
  headers : List (String × String)
  body : String
  deriving DecidableEq, Repr

/-- The single signaling request built by `main`: a POST to `server_url`
with a `Content-Length` header equal to the body length and the raw offer
SDP as body. -/
def signaling_request (sdp : String) : HttpRequest :=
  { method := "POST"
    url := server_url
    headers := [("Content-Length", toString sdp.length)]
    body := sdp }

/-- Embedding of the `match request.send().await` at `main.rs:153-158`:
the response on success, `none` (the `panic!`, aborting the process) on
any transport error.  The request is sent exactly once; there is no
retry path. -/
def handle_send_result (α : Type) (r : Except String α) : Option α :=
  match r with
  | .ok resp => some resp
  | .error _ => none

/-! ## The post-decode signaling steps (`main.rs:164-181`) -/

/-- The SDP type enum from the webrtc crate (only the variants needed
here). -/
inductive RTCSdpType where
  | unspecified
  | offer
  | pranswer
  | answer
  | rollback
  deriving DecidableEq, Repr

/-- Embedding of `RTCSessionDescription`: type and SDP text. -/
structure RTCSessionDescription where
  sdp_type : RTCSdpType
  sdp : String
  deriving DecidableEq, Repr

/-- The remote description built at `main.rs:165-167`: default, then
`sdp_type = RTCSdpType::Answer` and `sdp = session_response.answer.sdp`.
The decoded `answer.type` string is never consulted. -/
def remote_description (resp : JsSessionResponse) : RTCSessionDescription :=
  { sdp_type := .answer, sdp := resp.answer.sdp }

/-- Embedding of `RTCIceCandidateInit` as used at `main.rs:173-178`;
`username_fragment` comes from `..Default::default()`. -/
structure RTCIceCandidateInit where
  candidate : String
  sdp_mid : String
  sdp_mline_index : ℕ
  username_fragment : Option String := none
  deriving DecidableEq, Repr

/-- The candidate built from the decoded response (`main.rs:173-178`). -/
def ice_candidate_of (resp : JsSessionResponse) : RTCIceCandidateInit :=
  { candidate := resp.candidate.candidate
    sdp_mid := resp.candidate.sdp_mid
    sdp_mline_index := resp.candidate.sdp_m_line_index }

/-- The external actions `main` can take after decoding the signaling
response.  `feedAddressCell` is the action the specification describes
(feeding the raw candidate text into the Address Cell); it is part of the
vocabulary so that its absence from the actual step list can be stated. -/
inductive SignalStep where
  | setRemoteDescription (desc : RTCSessionDescription)
  | feedAddressCell (raw : String)
  | addIceCandidate (c : RTCIceCandidateInit)
  deriving DecidableEq, Repr

/-- The sequence of external actions `main` performs after
`get_session_response` returns (`main.rs:164-181`): apply the answer as
the remote description, then add the ICE candidate.  Nothing else. -/
def main_post_decode_steps (resp : JsSessionResponse) : List SignalStep :=
  [ .setRemoteDescription (remote_description resp),
    .addIceCandidate (ice_candidate_of resp) ]

/-- Number of Address Cell feeds in a step sequence. -/
def countFeedSteps (steps : List SignalStep) : ℕ :=
  steps.countP (fun s => match s with
    | .feedAddressCell _ => true
    | _ => false)

/-- Embedding of the `if let Err(error) = ... add_ice_candidate ...`
at `main.rs:179-181`: `none` models the `panic!` on failure. -/
def handle_add_ice_result (r : Except String Unit) : Option Unit :=
  match r with
  | .ok _ => some ()
  | .error _ => none

/-! ## The Address Cell and Candidate Parser

Modelled from the spec: these two components (spec sections 4.1 and
4.2) are present only in other revisions of this repository and are
absent from the sources under `src/`; every definition in this section is
therefore taken from the specification text, not from Rust code. -/

/-- Modelled from the spec: the state of the Address Cell
(spec section 3): either still finding the address or holding a found
address. -/
inductive AddressState where
  | finding
  | found (addr : String)
  deriving DecidableEq, Repr

/-- True when the cell holds a found address. -/
def AddressState.isFound : AddressState → Bool
  | .finding => false
  | .found _ => true

/-- Split a character list into its space-delimited fields; consecutive
delimiters yield empty fields, as string splitting does. -/
def splitFields : List Char → List (List Char)
  | [] => [[]]
  | c :: rest =>
    if c == ' ' then [] :: splitFields rest
    else
      match splitFields rest with
      | f :: fs => (c :: f) :: fs
      | [] => [[c]]

/-- Parse a nonempty run of decimal digits into a number; `none` on an
empty list or any non-digit character. -/
def parseDecimal : List Char → ℕ → Option ℕ
  | [], acc => some acc
  | c :: rest, acc =>
    if c.isDigit then parseDecimal rest (acc * 10 + (c.toNat - 48)) else none

/-- Parse a field as a port number. -/
def parsePort (cs : List Char) : Option ℕ :=
  match cs with
  | [] => none
  | _ => parseDecimal cs 0

/-- Modelled from the spec: the Candidate Parser (spec section 4.2).
The candidate line is split on spaces into
(foundation, component, protocol, priority, connection-address, port,
the literal `typ`, type, ...); the parser returns the connection address
and port, and fails silently on any line of the wrong shape (too few
fields, non-numeric or out-of-range port). -/
def candidate_to_addr (text : String) : Option String :=
  let fields := splitFields text.toList
  if fields.length < 8 then none
  else
    match (fields.get? 5).bind parsePort with
    | none => none
    | some port =>
      if port < 65536 then
        (fields.get? 4).map (fun ip => String.mk ip ++ ":" ++ toString port)
      else none

/-- Modelled from the spec: `set_from_candidate` (spec section 4.1)
parses the embedded address and transitions the cell to Found exactly
once; malformed text leaves the cell unchanged, and a cell that is
already Found is never overwritten. -/
def set_from_candidate (s : AddressState) (text : String) : AddressState :=
  match s with
  | .found a => .found a
  | .finding =>
    match candidate_to_addr text with
    | some a => .found a
    | none => .finding

/-- A call against the Address Cell: a `get` snapshot or a
`set_from_candidate`. -/
inductive CellOp where
  | get
  | set (text : String)
  deriving DecidableEq, Repr

/-- Effect of one call on the cell state (`get` does not change it). -/
def cell_step (s : AddressState) : CellOp → AddressState
  | .get => s
  | .set text => set_from_candidate s text

/-- The cell state after a sequence of calls. -/
def cell_run (s : AddressState) (ops : List CellOp) : AddressState :=
  ops.foldl cell_step s

/-- The sequence of cell states visited along a sequence of calls,
starting state included. -/
def cell_trace (s : AddressState) : List CellOp → List AddressState
  | [] => [s]
  | op :: ops => s :: cell_trace (cell_step s op) ops

/-- Number of Finding-to-Found transitions along a state trace. -/
def countFoundTransitions : List AddressState → ℕ
  | a :: b :: rest =>
      (if a.isFound = false ∧ b.isFound = true then 1 else 0) +
        countFoundTransitions (b :: rest)
  | _ => 0

/-- Modelled from the spec: the rendering of a cell snapshot in a log
tag (spec section 8: the tag shows the resolved address, or an
unresolved marker while still finding). -/
def addressSnapshotTag : AddressState → String
  | .finding => "Finding"
  | .found a => a

/-! ## Substring testing, for statements about log lines -/

/-- True when `needle` is a prefix of `hay` (over character lists). -/
def startsWithChars : List Char → List Char → Bool
  | [], _ => true
  | _ :: _, [] => false
  | a :: as, b :: bs => a == b && startsWithChars as bs

/-- True when `needle` occurs contiguously inside `hay`. -/
def containsChars (needle : List Char) : List Char → Bool
  | [] => startsWithChars needle []
  | b :: rest => startsWithChars needle (b :: rest) || containsChars needle rest

/-- True when the string `needle` occurs contiguously inside `hay`. -/
def strContains (needle hay : String) : Bool :=
  containsChars needle.toList hay.toList

/-! ## Concrete inputs used by witnesses and counterexamples -/

/-- The bytes of the text `PONG`, as received from the server. -/
def pongBytes : List UInt8 := [80, 79, 78, 71]

/-- A concrete decoded signaling response. -/
def exampleResponse : JsSessionResponse :=
  { answer := { sdp := "v=0", type_str := "answer" }
    candidate := { candidate := "candidate:1 1 UDP 2122260223 192.0.2.5 54321 typ host"
                   sdp_m_line_index := 0
                   sdp_mid := "0" } }

/-! ## Helper lemmas -/

lemma rust_f64_as_u16_natCast (n : ℕ) (h : n ≤ 65535) :
    rust_f64_as_u16 (n : ℚ) = n := by
  unfold rust_f64_as_u16
  split
  · next h0 =>
    have hn : (n : ℚ) = 0 := le_antisymm h0 (Nat.cast_nonneg n)
    exact_mod_cast hn.symm
  · next h0 =>
    split
    · next h65 =>
      have : (65535 : ℕ) ≤ n := by exact_mod_cast h65
      omega
    · next h65 =>
      rw [Int.floor_natCast]
      exact Int.toNat_natCast n

/-! ## Claim theorems -/

/-- C1: for every signaling response body, if all five required fields
(answer.sdp, answer.type, candidate.candidate, candidate.sdpMLineIndex,
candidate.sdpMid) are present with their expected JSON types, decoding
returns a `JsSessionResponse` carrying exactly those values; if any one
of them is missing or mistyped, decoding panics (modelled by `none`)
with no partial result. -/
theorem get_session_response_required_fields (j : JsonValue) :
    (∀ (s t c m : String) (n : ℕ), n ≤ 65535 →
      fieldString j "answer" "sdp" = some s →
      fieldString j "answer" "type" = some t →
      fieldString j "candidate" "candidate" = some c →
      fieldNumber j "candidate" "sdpMLineIndex" = some (n : ℚ) →
      fieldString j "candidate" "sdpMid" = some m →
      get_session_response j =
        some { answer := { sdp := s, type_str := t }
               candidate := { candidate := c, sdp_m_line_index := n, sdp_mid := m } }) ∧
    (requiredFieldsOk j = false → get_session_response j = none) := by
  constructor
  · intro s t c m n hn h1 h2 h3 h4 h5
    simp [get_session_response, h1, h2, h3, h4, h5, rust_f64_as_u16_natCast n hn]
  · intro hbad
    cases h1 : fieldString j "answer" "sdp" with
    | none => simp [get_session_response, h1]
    | some s =>
      cases h2 : fieldString j "answer" "type" with
      | none => simp [get_session_response, h1, h2]
      | some t =>
        cases h3 : fieldString j "candidate" "candidate" with
        | none => simp [get_session_response, h1, h2, h3]
        | some c =>
          cases h4 : fieldNumber j "candidate" "sdpMLineIndex" with
          | none => simp [get_session_response, h1, h2, h3, h4]
          | some q =>
            cases h5 : fieldString j "candidate" "sdpMid" with
            | none => simp [get_session_response, h1, h2, h3, h4, h5]
            | some mid =>
              simp [requiredFieldsOk, h1, h2, h3, h4, h5] at hbad

/-- Witness for C1 at concrete inputs: a fully-populated body decodes to
exactly its field values, and the empty object panics. -/
theorem get_session_response_required_fields_witness :
    get_session_response (mkResponseJson "v=0" "answer" "cand" 3 "0") =
      some { answer := { sdp := "v=0", type_str := "answer" }
             candidate := { candidate := "cand", sdp_m_line_index := 3, sdp_mid := "0" } } ∧
    get_session_response (JsonValue.object []) = none :=
  ⟨(get_session_response_required_fields (mkResponseJson "v=0" "answer" "cand" 3 "0")).1
      "v=0" "answer" "cand" "0" 3 (by decide) (by decide) (by decide) (by decide)
      (by decide) (by decide),
   (get_session_response_required_fields (JsonValue.object [])).2 (by decide)⟩

/-- C9: for every signaling response whose `candidate.sdpMLineIndex` is
present as a JSON number (and whose other four required fields are
present), decoding does not panic; the stored index is the number
coerced by the Rust saturating cast `f64 as u16`: 0 at or below 0,
65535 at or above 65535, and the integer part (fraction truncated)
in between — fractional, negative, or out-of-range values are silently
coerced, never rejected. -/
theorem sdp_m_line_index_saturating_coercion (j : JsonValue)
    (s t c m : String) (q : ℚ)
    (h1 : fieldString j "answer" "sdp" = some s)
    (h2 : fieldString j "answer" "type" = some t)
    (h3 : fieldString j "candidate" "candidate" = some c)
    (h4 : fieldNumber j "candidate" "sdpMLineIndex" = some q)
    (h5 : fieldString j "candidate" "sdpMid" = some m) :
    get_session_response j =
      some { answer := { sdp := s, type_str := t }
             candidate := { candidate := c
                            sdp_m_line_index := rust_f64_as_u16 q
                            sdp_mid := m } } ∧
    (q ≤ 0 → rust_f64_as_u16 q = 0) ∧
    ((65535 : ℚ) ≤ q → rust_f64_as_u16 q = 65535) ∧
    (0 < q → q < 65535 → (rust_f64_as_u16 q : ℤ) = ⌊q⌋) := by
  refine ⟨?_, ?_, ?_, ?_⟩
  · simp [get_session_response, h1, h2, h3, h4, h5]
  · intro hq
    simp [rust_f64_as_u16, hq]
  · intro hq
    have h0 : ¬ q ≤ 0 := by
      intro hle
      linarith
    simp [rust_f64_as_u16, h0, hq]
  · intro hpos hlt
    have h0 : ¬ q ≤ 0 := not_le.mpr hpos
    have h65 : ¬ (65535 : ℚ) ≤ q := not_le.mpr hlt
    simp only [rust_f64_as_u16, if_neg h0, if_neg h65]
    exact Int.toNat_of_nonneg (Int.floor_nonneg.mpr (le_of_lt hpos))

/-- Witness for C9 at a concrete input: with `sdpMLineIndex` equal to
minus seven halves (fractional and negative), decoding succeeds and the
stored index saturates to 0. -/
theorem sdp_m_line_index_saturating_coercion_witness :
    get_session_response (mkResponseJson "v=0" "answer" "cand" qNegSevenHalves "0") =
      some { answer := { sdp := "v=0", type_str := "answer" }
             candidate := { candidate := "cand"
                            sdp_m_line_index := rust_f64_as_u16 qNegSevenHalves
                            sdp_mid := "0" } } ∧
    rust_f64_as_u16 qNegSevenHalves = 0 := by
  have h := sdp_m_line_index_saturating_coercion
      (mkResponseJson "v=0" "answer" "cand" qNegSevenHalves "0")
      "v=0" "answer" "cand" "0" qNegSevenHalves
      (by decide) (by decide) (by decide) (by decide) (by decide)
  exact ⟨h.1, h.2.1 (by decide)⟩

/-- C6: the data channel created during signaling is configured
unordered and unreliable with zero retransmits: its creation options set
`ordered = Some(false)` and `max_retransmits = Some(0)`. -/
theorem data_channel_unordered_zero_retransmits :
    data_channel_config.ordered = some false ∧
    data_channel_config.max_retransmits = some 0 :=
  ⟨rfl, rfl⟩

/-- C7: the signaling request is a POST of the serialized local
description to the fixed endpoint, with a Content-Length header equal to
the body length; a transport error on this single request panics
(modelled by `none`), with no retry. -/
theorem signaling_request_fixed_endpoint (sdp : String) :
    (signaling_request sdp).method = "POST" ∧
    (signaling_request sdp).url = server_url ∧
    server_url = "http://127.0.0.1:14191/rtc_session" ∧
    (signaling_request sdp).headers = [("Content-Length", toString sdp.length)] ∧
    (signaling_request sdp).body = sdp ∧
    (∀ msg : String, handle_send_result String (Except.error msg) = none) ∧
    (∀ body : String, handle_send_result String (Except.ok body) = some body) :=
  ⟨rfl, rfl, rfl, rfl, rfl, fun _ => rfl, fun _ => rfl⟩

/-- C8: the decoded `answer.type` string is never consulted — the remote
description applied by `main` always has SDP type `answer`, and changing
the `type_str` of a decoded response does not change the description
built from it. -/
theorem remote_description_ignores_answer_type (resp : JsSessionResponse) (t : String) :
    (remote_description resp).sdp_type = RTCSdpType.answer ∧
    remote_description
        { answer := { sdp := resp.answer.sdp, type_str := t }
          candidate := resp.candidate } =
      remote_description resp :=
  ⟨rfl, rfl⟩

lemma cell_step_found (a : String) (op : CellOp) :
    cell_step (AddressState.found a) op = AddressState.found a := by
  cases op <;> rfl

lemma cell_run_found (a : String) (ops : List CellOp) :
    cell_run (AddressState.found a) ops = AddressState.found a := by
  induction ops with
  | nil => rfl
  | cons op ops ih =>
    simpa [cell_run, List.foldl_cons, cell_step_found] using ih

lemma countFoundTransitions_cons (s s' : AddressState) (ops : List CellOp) :
    countFoundTransitions (s :: cell_trace s' ops) =
      (if s.isFound = false ∧ s'.isFound = true then 1 else 0) +
        countFoundTransitions (cell_trace s' ops) := by
  cases ops <;> rfl

lemma cell_trace_found_count (a : String) (ops : List CellOp) :
    countFoundTransitions (cell_trace (AddressState.found a) ops) = 0 := by
  induction ops with
  | nil => rfl
  | cons op ops ih =>
    simp [cell_trace, cell_step_found, countFoundTransitions_cons, ih,
      AddressState.isFound]

lemma cell_trace_count_le_one (s : AddressState) (ops : List CellOp) :
    countFoundTransitions (cell_trace s ops) ≤ 1 := by
  induction ops generalizing s with
  | nil => simp [cell_trace, countFoundTransitions]
  | cons op ops ih =>
    rw [cell_trace, countFoundTransitions_cons]
    cases hstep : cell_step s op with
    | finding =>
      simpa [AddressState.isFound] using ih AddressState.finding
    | found a =>
      rw [cell_trace_found_count]
      split <;> omega

/-- C2: the Address Cell is monotonic and write-once — for every sequence
of `get` and `set_from_candidate` calls, a cell that is Found stays
Found at the same address for the whole sequence, and along any trace
the cell transitions from Finding to Found at most once. -/
theorem address_cell_monotone_write_once :
    (∀ (a : String) (ops : List CellOp),
      cell_run (AddressState.found a) ops = AddressState.found a) ∧
    (∀ (s : AddressState) (ops : List CellOp),
      countFoundTransitions (cell_trace s ops) ≤ 1) :=
  ⟨cell_run_found, cell_trace_count_le_one⟩

/-- C3 counterexample: at a concrete decoded response, the signaling
path after decoding performs no feed of the candidate raw text into an
Address Cell — the step list contains zero feed actions, refuting the
claim that such a feed happens. -/
theorem main_post_decode_no_feed_counterexample :
    countFeedSteps (main_post_decode_steps exampleResponse) = 0 := by
  decide

/-- C3 (amended): after decoding the response, `main` applies the answer
as the remote description and then applies the decoded candidate via the
add-candidate mechanism (whose failure panics); the raw candidate text
is not fed into any Address Cell — no such step occurs in this
revision. -/
theorem main_post_decode_steps_apply_only (resp : JsSessionResponse) :
    main_post_decode_steps resp =
      [SignalStep.setRemoteDescription (remote_description resp),
       SignalStep.addIceCandidate (ice_candidate_of resp)] ∧
    countFeedSteps (main_post_decode_steps resp) = 0 ∧
    (∀ msg : String, handle_add_ice_result (Except.error msg) = none) :=
  ⟨rfl, rfl, fun _ => rfl⟩

/-- C4 counterexample: the claim says each received payload is logged
tagged with the Address Cell snapshot; on the concrete trace delivering
the text PONG the log line carries no snapshot tag — neither the
unresolved marker nor the address of the spec scenario occurs in it. -/
theorem read_loop_log_untagged_counterexample :
    read_loop [ReadEvent.payload pongBytes] =
      ReadOutcome.running ["Message from DataChannel: PONG"] ∧
    strContains (addressSnapshotTag AddressState.finding)
      "Message from DataChannel: PONG" = false ∧
    strContains (addressSnapshotTag (AddressState.found "192.0.2.5:54321"))
      "Message from DataChannel: PONG" = false :=
  ⟨by decide, by decide, by decide⟩

/-- C4 (amended): the read task reads into a fixed-size buffer of
`MESSAGE_SIZE` = 1500 bytes; each successfully received payload is
decoded as text and logged with the fixed message prefix (no Address
Cell tag); any read error ends the task cleanly with a success
result. -/
theorem read_loop_buffer_log_and_exit :
    MESSAGE_SIZE = 1500 ∧
    (∀ (bytes : List UInt8) (rest : List ReadEvent) (log : List String)
       (cs : List Char),
      bytes.length ≤ MESSAGE_SIZE →
      utf8Decode bytes = some cs →
      read_loop_go (ReadEvent.payload bytes :: rest) log =
        read_loop_go rest (("Message from DataChannel: " ++ String.mk cs) :: log)) ∧
    (∀ (msg : String) (rest : List ReadEvent) (log : List String),
      read_loop_go (ReadEvent.readErr msg :: rest) log =
        ReadOutcome.closedOk
          (("Datachannel closed; Exit the read_loop: " ++ msg) :: log).reverse) := by
  refine ⟨rfl, ?_, ?_⟩
  · intro bytes rest log cs hlen hdec
    simp [read_loop_go, hdec]
  · intro msg rest log
    rfl

/-- Witness for C4 at a concrete input: the PONG payload fits the buffer
and is decoded and logged with the fixed prefix. -/
theorem read_loop_buffer_log_and_exit_witness :
    pongBytes.length ≤ MESSAGE_SIZE ∧
    read_loop_go [ReadEvent.payload pongBytes] [] =
      read_loop_go [] ["Message from DataChannel: " ++ String.mk "PONG".toList] :=
  ⟨by decide,
   read_loop_buffer_log_and_exit.2.1 pongBytes [] [] "PONG".toList
     (by decide) (by decide)⟩

/-- C10: if the read task successfully receives a payload whose bytes
are not valid UTF-8, it terminates by propagating the decode error (an
error result); in contrast, a channel read error terminates it with a
success result. -/
theorem read_loop_utf8_error_result :
    (∀ (bytes : List UInt8) (rest : List ReadEvent) (log : List String),
      utf8Decode bytes = none →
      read_loop_go (ReadEvent.payload bytes :: rest) log =
        ReadOutcome.utf8Err log.reverse) ∧
    (∀ (msg : String) (rest : List ReadEvent) (log : List String),
      read_loop_go (ReadEvent.readErr msg :: rest) log =
        ReadOutcome.closedOk
          (("Datachannel closed; Exit the read_loop: " ++ msg) :: log).reverse) := by
  constructor
  · intro bytes rest log hdec
    simp [read_loop_go, hdec]
  · intro msg rest log
    rfl

/-- Witness for C10 at a concrete input: the single byte 255 is not
valid UTF-8, and receiving it ends the read task with an error
result. -/
theorem read_loop_utf8_error_result_witness :
    read_loop_go [ReadEvent.payload [255]] [] = ReadOutcome.utf8Err [] :=
  read_loop_utf8_error_result.1 [255] [] [] (by decide)

lemma write_loop_go_err (pre post : List SendResult) (msg : String)
    (sent : List String) (h : pre.all SendResult.isOk = true) :
    write_loop_go (pre ++ SendResult.sendErr msg :: post) sent =
      WriteOutcome.stopped
        ((List.replicate (pre.length + 1) write_payload ++ sent).reverse) := by
  induction pre generalizing sent with
  | nil => rfl
  | cons r pre ih =>
    cases r with
    | ok n =>
      simp only [List.all_cons, Bool.and_eq_true] at h
      rw [List.cons_append]
      show write_loop_go (pre ++ SendResult.sendErr msg :: post)
          (write_payload :: sent) = _
      rw [ih (write_payload :: sent) h.2]
      congr 1
      simp [List.replicate_succ', List.append_assoc]
    | sendErr m2 =>
      simp [List.all_cons, SendResult.isOk] at h

/-- C5: on each expiry of the fixed 5-second timer the write task sends
the same fixed literal payload; after the first send that returns an
error it performs no further sends and terminates, with no retry — the
payloads sent over a trace whose first failure comes after `pre` are
exactly `pre.length + 1` copies of the literal, whatever outcomes would
have followed. -/
theorem write_loop_fixed_payload_stops_on_error
    (pre post : List SendResult) (msg : String)
    (h : pre.all SendResult.isOk = true) :
    write_loop (pre ++ SendResult.sendErr msg :: post) =
      WriteOutcome.stopped (List.replicate (pre.length + 1) write_payload) ∧
    write_payload = "PING" ∧
    writeIntervalSecs = 5 := by
  refine ⟨?_, rfl, rfl⟩
  rw [write_loop, write_loop_go_err pre post msg [] h]
  simp [List.reverse_replicate]

/-- Witness for C5 at a concrete trace: one successful send, then a
failure, then outcomes that are never attempted — exactly two payloads
go out and the task stops. -/
theorem write_loop_fixed_payload_stops_on_error_witness :
    write_loop [SendResult.ok 4, SendResult.sendErr "closed", SendResult.ok 4] =
      WriteOutcome.stopped ["PING", "PING"] :=
  (write_loop_fixed_payload_stops_on_error
    [SendResult.ok 4] [SendResult.ok 4] "closed" (by decide)).1
